import Mathlib

/- Shallow embedding of the two VPAID example ad adapters:
   VpaidLinearAd (src/examples/VpaidLinearAd.js) and
   VpaidNonLinear (src/unnamed/part_000).

   Conventions of the embedding:
   * JS numbers are modelled as rationals.
   * The per-instance callback object (eventsCallbacks_ / eventCallbacks_) is a
     total map String -> CbVal.  A key that was never written is .missing
     (the JS property is absent, so the `in` operator is false); subscribe
     writes .fn (a bound function); unsubscribe writes .null (the source
     assigns null, which keeps the key present).  Invoking a .null or
     .missing value throws a TypeError.
   * Each method returns a Res: the final state (JS mutations performed
     before a throw persist), the list of callback invocations that actually
     happened, an ok flag (false when the method threw), and the number of
     requestFullscreen calls issued to the ambient fullscreen target.
   * DOM/renderer objects are modelled only through the data the core reads
     or writes: the video element (duration, currentTime, volume, paused),
     the slot (present or null), the ambient global `elem` used by expandAd
     (absent means a ReferenceError), and the browser timer queue (a list of
     pending interval/timeout records with fresh integer ids).
   * Fields that the constructor leaves undefined (timePaused_,
     pauseStartTime_, lastRemainingTime_ of VpaidNonLinear; the parsed
     parameters before initAd) are Option values, none meaning
     undefined/NaN; arithmetic on none propagates none exactly as NaN does. -/

/-- Value stored under an event name in the callbacks object of either ad. -/
inductive CbVal where
  | missing
  | null
  | fn
deriving DecidableEq, Repr

/-- The callbacks object: a total map from event name to stored value. -/
abbrev Cbs := String → CbVal

/-- Result of running one adapter method: final state, callbacks invoked (in
order), whether the method completed without throwing, and how many
requestFullscreen calls were issued. -/
structure Res (σ : Type) where
  st : σ
  evs : List String
  ok : Bool
  fsReqs : Nat

/-- Invoke a sequence of dispatch attempts through the checked pattern
(`if (name in callbacks) callbacks[name]()`): a missing key is skipped
silently, a null value throws (stopping the chain), a function is invoked. -/
def emitChain (c : Cbs) : List String → List String × Bool
  | [] => ([], true)
  | n :: rest =>
    match c n with
    | .missing => emitChain c rest
    | .null => ([], false)
    | .fn =>
      let p := emitChain c rest
      (n :: p.1, p.2)

/-- The video element, reduced to the data the adapters read or write. -/
structure VideoSlot where
  duration : ℚ
  currentTime : ℚ
  volume : ℚ
  paused : Bool
deriving DecidableEq, Repr

/-- A pending browser timer: setInterval when isInterval, else setTimeout. -/
structure Timer where
  id : Nat
  isInterval : Bool
  delay : ℚ
  action : String
deriving DecidableEq, Repr

/-- The ambient global `elem` that expandAd dereferences for fullscreen. -/
structure Elem where
  hasRequestFullscreen : Bool
deriving DecidableEq, Repr

/-- The event names listed as the emitted-event set of the adapters. -/
def hostEvents : List String :=
  ["AdLoaded", "AdStarted", "AdImpression", "AdVideoStart",
   "AdVideoFirstQuartile", "AdVideoMidpoint", "AdVideoThirdQuartile",
   "AdVideoComplete", "AdPaused", "AdPlaying", "AdStopped", "AdSkipped",
   "AdSizeChange", "AdExpanded", "AdVolumeChange", "AdDurationChange",
   "AdRemainingTimeChange", "AdLinearChange", "AdClickThru", "AdError"]

/-- A host that has subscribed a live callback to every documented event. -/
def hostCbs : Cbs := fun e => if e ∈ hostEvents then .fn else .missing

namespace VpaidLinearAd

/-- State of one VpaidLinearAd instance: the attributes_ bag, the private
fields, and the modelled environment (slot, video element, timer queue). -/
structure State where
  slotPresent : Bool
  videoSlot : Option VideoSlot
  eventsCallbacks_ : Cbs
  companions : String
  desiredBitrate : ℚ
  duration : ℚ
  expanded : Bool
  height : ℚ
  icons : Bool
  linear : Bool
  remainingTime : ℚ
  skippableState : Bool
  viewMode : String
  width : ℚ
  volume : ℚ
  intervalId : Option Nat
  lastQuartileIndex : Nat
  adsLen : Option Nat
  timers : List Timer
  nextTimerId : Nat

/-- The quartileEvents_ array of (event, value) records. -/
def quartileEvents_ : List (String × ℚ) :=
  [("AdImpression", 0), ("AdVideoStart", 0), ("AdVideoFirstQuartile", 25),
   ("AdVideoMidpoint", 50), ("AdVideoThirdQuartile", 75),
   ("AdVideoComplete", 100)]

/-- Names of the scheduled quartile events, in schedule order. -/
def quartileNames : List String := quartileEvents_.map Prod.fst

/-- State produced by the VpaidLinearAd constructor: no slot or video
element yet, empty callbacks object, the literal attributes_ defaults,
parameters_ empty (so parameters_.ads is undefined). -/
def construct : State where
  slotPresent := false
  videoSlot := none
  eventsCallbacks_ := fun _ => .missing
  companions := ""
  desiredBitrate := 256
  duration := 6
  expanded := false
  height := 0
  icons := false
  linear := true
  remainingTime := 13
  skippableState := false
  viewMode := "normal"
  width := 0
  volume := 1
  intervalId := none
  lastQuartileIndex := 0
  adsLen := none
  timers := []
  nextTimerId := 1

/-- callEvent_: invoke the callback when the key is present; a key holding
null is still present, so the invocation attempt throws (none). -/
def callEvent_ (c : Cbs) (eventType : String) : Option (List String) :=
  match c eventType with
  | .missing => some []
  | .null => none
  | .fn => some [eventType]

/-- subscribe: bind a (context-bound) callback under the event name,
replacing any prior binding. -/
def subscribe (c : Cbs) (eventName : String) : Cbs :=
  fun e => if e = eventName then .fn else c e

/-- unsubscribe: assign null under the event name (the key stays present). -/
def unsubscribe (c : Cbs) (eventName : String) : Cbs :=
  fun e => if e = eventName then .null else c e

/-- overlayOnClick_: if 'AdClickThru' is a present key, invoke it (a null
value therefore throws). -/
def overlayOnClick_ (s : State) : Res State :=
  match callEvent_ s.eventsCallbacks_ "AdClickThru" with
  | some evs => ⟨s, evs, true, 0⟩
  | none => ⟨s, [], false, 0⟩

/-- Tail of timeUpdateHandler_: commit the media-reported duration and fire
AdDurationChange only when it differs from the stored duration. -/
def durationCheck (s : State) (vs : VideoSlot) (acc : List String) :
    Res State :=
  if s.duration = vs.duration then ⟨s, acc, true, 0⟩
  else
    let s2 : State := { s with duration := vs.duration }
    match callEvent_ s2.eventsCallbacks_ "AdDurationChange" with
    | some evs => ⟨s2, acc ++ evs, true, 0⟩
    | none => ⟨s2, acc, false, 0⟩

/-- timeUpdateHandler_: update remainingTime from the video element, return
early once the quartile cursor is exhausted, otherwise fire (by direct
unchecked invocation) the single next quartile event whose threshold the
current percent has reached, then run the duration check. -/
def timeUpdateHandler_ (s : State) : Res State :=
  match s.videoSlot with
  | none => ⟨s, [], false, 0⟩
  | some vs =>
    let s1 : State := { s with remainingTime := vs.duration - vs.currentTime }
    if quartileEvents_.length ≤ s1.lastQuartileIndex then
      ⟨s1, [], true, 0⟩
    else
      let percentPlayed : ℚ := vs.currentTime * 100 / vs.duration
      let entry := quartileEvents_.getD s1.lastQuartileIndex ("", 0)
      if entry.2 ≤ percentPlayed then
        match s1.eventsCallbacks_ entry.1 with
        | .fn =>
          durationCheck
            { s1 with lastQuartileIndex := s1.lastQuartileIndex + 1 }
            vs [entry.1]
        | _ => ⟨s1, [], false, 0⟩
      else
        durationCheck s1 vs []

/-- Run a sequence of media time updates: before each tick the video element
has mutated to the sampled value, then timeUpdateHandler_ fires.  A throw
inside one tick does not stop later ticks (each runs from the event loop). -/
def runTimeUpdates : State → List VideoSlot → State × List String
  | s, [] => (s, [])
  | s, vs :: rest =>
    let r := timeUpdateHandler_ { s with videoSlot := some vs }
    let p := runTimeUpdates r.st rest
    (p.1, r.evs ++ p.2)

/-- startAd: build the markup from parameters_.ads[0] (throwing when ads is
undefined or empty), append it to the slot (throwing when the slot is
null), start video playback, then dispatch AdStarted. -/
def startAd (s : State) : Res State :=
  match s.adsLen with
  | none => ⟨s, [], false, 0⟩
  | some 0 => ⟨s, [], false, 0⟩
  | some (_ + 1) =>
    if s.slotPresent = false then ⟨s, [], false, 0⟩
    else
      match s.videoSlot with
      | none => ⟨s, [], false, 0⟩
      | some vs =>
        let s1 : State := { s with videoSlot := some { vs with paused := false } }
        let p := emitChain s1.eventsCallbacks_ ["AdStarted"]
        ⟨s1, p.1, p.2, 0⟩

/-- Clear the timer named by intervalId_ when the handle is truthy (the
pattern `if (this.intervalId_) clearInterval(this.intervalId_)`). -/
def clearTheInterval (s : State) : State :=
  match s.intervalId with
  | some i => { s with timers := s.timers.filter (fun t => t.id ≠ i) }
  | none => s

/-- stopAd: clear the remaining-time interval, then schedule the AdStopped
dispatch on a 75-unit timeout; nothing is dispatched synchronously.  (The
source passes the array literal with 'AdStopped' to setTimeout; property
lookup coerces it back to the string key.) -/
def stopAd (s : State) : Res State :=
  let s1 := clearTheInterval s
  let s2 : State := { s1 with
    timers := s1.timers ++ [⟨s1.nextTimerId, false, 75, "AdStopped"⟩],
    nextTimerId := s1.nextTimerId + 1 }
  ⟨s2, [], true, 0⟩

/-- setAdVolume: commit the value to attributes_ first, push the rescaled
value to the video element (throwing when it is null), then dispatch
AdVolumeChange. -/
def setAdVolume (value : ℚ) (s : State) : Res State :=
  let s1 : State := { s with volume := value }
  match s1.videoSlot with
  | none => ⟨s1, [], false, 0⟩
  | some vs =>
    let s2 : State := { s1 with videoSlot := some { vs with volume := value / 100 } }
    let p := emitChain s2.eventsCallbacks_ ["AdVolumeChange"]
    ⟨s2, p.1, p.2, 0⟩

/-- updateVideoPlayerSize_: sets size attributes on the video element inside
a try/catch whose catch is a no-op, so it never throws and changes no
adapter attribute. -/
def updateVideoPlayerSize_ (s : State) : State := s

/-- resizeAd: commit width, height and viewMode, re-layout the player, then
dispatch AdSizeChange. -/
def resizeAd (width height : ℚ) (viewMode : String) (s : State) : Res State :=
  let s1 : State := { s with width := width, height := height, viewMode := viewMode }
  let s2 := updateVideoPlayerSize_ s1
  let p := emitChain s2.eventsCallbacks_ ["AdSizeChange"]
  ⟨s2, p.1, p.2, 0⟩

/-- pauseAd: pause the video element (throwing when it is null), dispatch
AdPaused, then clear the remaining-time interval. -/
def pauseAd (s : State) : Res State :=
  match s.videoSlot with
  | none => ⟨s, [], false, 0⟩
  | some vs =>
    let s1 : State := { s with videoSlot := some { vs with paused := true } }
    let p := emitChain s1.eventsCallbacks_ ["AdPaused"]
    if p.2 = false then ⟨s1, p.1, false, 0⟩
    else ⟨clearTheInterval s1, p.1, true, 0⟩

/-- resumeAd: play the video element (throwing when it is null), dispatch
AdPlaying, then install a fresh 250-unit remaining-time interval, storing
its id in intervalId_ (any previously stored id is overwritten). -/
def resumeAd (s : State) : Res State :=
  match s.videoSlot with
  | none => ⟨s, [], false, 0⟩
  | some vs =>
    let s1 : State := { s with videoSlot := some { vs with paused := false } }
    let p := emitChain s1.eventsCallbacks_ ["AdPlaying"]
    if p.2 = false then ⟨s1, p.1, false, 0⟩
    else
      let s2 : State := { s1 with
        timers := s1.timers ++ [⟨s1.nextTimerId, true, 250, "AdRemainingTimeChange"⟩],
        intervalId := some s1.nextTimerId,
        nextTimerId := s1.nextTimerId + 1 }
      ⟨s2, p.1, true, 0⟩

/-- expandAd: set the expanded flag, dereference the ambient global `elem`
(a ReferenceError when it does not exist), request fullscreen when the
element supports it, then dispatch AdExpanded. -/
def expandAd (elem : Option Elem) (s : State) : Res State :=
  let s1 : State := { s with expanded := true }
  match elem with
  | none => ⟨s1, [], false, 0⟩
  | some e =>
    let fs := if e.hasRequestFullscreen then 1 else 0
    let p := emitChain s1.eventsCallbacks_ ["AdExpanded"]
    ⟨s1, p.1, p.2, fs⟩

/-- collapseAd: clear the expanded flag; no event is dispatched. -/
def collapseAd (s : State) : Res State :=
  ⟨{ s with expanded := false }, [], true, 0⟩

/-- skipAd: dispatch AdSkipped only when skippableState is set. -/
def skipAd (s : State) : Res State :=
  if s.skippableState then
    let p := emitChain s.eventsCallbacks_ ["AdSkipped"]
    ⟨s, p.1, p.2, 0⟩
  else ⟨s, [], true, 0⟩

end VpaidLinearAd

namespace VpaidNonLinear

/-- State of one VpaidNonLinear instance: the attributes_ bag plus the
wall-clock bookkeeping fields.  timePaused_, pauseStartTime_ and
lastRemainingTime_ are undefined (none) until assigned; isPaused_ is
undefined before startAd, which the single `if` test treats as false. -/
structure State where
  slotPresent : Bool
  videoSlot : Option VideoSlot
  eventCallbacks_ : Cbs
  companions : String
  desiredBitrate : ℚ
  duration : ℚ
  expanded : Bool
  height : ℚ
  icons : String
  linear : Bool
  skippableState : Bool
  viewMode : String
  width : ℚ
  volume : ℚ
  startTime : ℚ
  timePaused : Option ℚ
  pauseStartTime : Option ℚ
  lastRemainingTime : Option ℚ
  isPaused : Bool
  adsLen : Option Nat
  videosLen : Option Nat

/-- State produced by the VpaidNonLinear constructor: the literal
attributes_ defaults, startTime_ = 0, everything else not yet assigned. -/
def construct : State where
  slotPresent := false
  videoSlot := none
  eventCallbacks_ := fun _ => .missing
  companions := ""
  desiredBitrate := 256
  duration := 10
  expanded := false
  height := 0
  icons := ""
  linear := false
  skippableState := false
  viewMode := "normal"
  width := 0
  volume := 50
  startTime := 0
  timePaused := none
  pauseStartTime := none
  lastRemainingTime := none
  isPaused := false
  adsLen := none
  videosLen := none

/-- invokeCallback_: invoke the callback when the key is present; a key
holding null is still present, so the invocation attempt throws (none). -/
def invokeCallback_ (c : Cbs) (eventType : String) : Option (List String) :=
  match c eventType with
  | .missing => some []
  | .null => none
  | .fn => some [eventType]

/-- subscribe: bind a (context-bound) callback under the event name. -/
def subscribe (c : Cbs) (eventName : String) : Cbs :=
  fun e => if e = eventName then .fn else c e

/-- unsubscribe: assign null under the event name (the key stays present). -/
def unsubscribe (c : Cbs) (eventName : String) : Cbs :=
  fun e => if e = eventName then .null else c e

/-- adsOnClick_: invoke eventCallbacks_['AdClickThru'] directly with no
presence check (throwing when it is missing or null), then extend the
duration by 10 and dispatch AdRemainingTimeChange. -/
def adsOnClick_ (s : State) : Res State :=
  match s.eventCallbacks_ "AdClickThru" with
  | .fn =>
    let s1 : State := { s with duration := s.duration + 10 }
    let p := emitChain s1.eventCallbacks_ ["AdRemainingTimeChange"]
    ⟨s1, "AdClickThru" :: p.1, p.2, 0⟩
  | _ => ⟨s, [], false, 0⟩

/-- loadedmetadata listener installed by overlay2OnClick_: when the media
duration differs from the stored duration, commit it, reset startTime_ and
timePaused_, and dispatch AdDurationChange; otherwise do nothing. -/
def loadedMetadataListener_ (now : ℚ) (s : State) : Res State :=
  match s.videoSlot with
  | none => ⟨s, [], false, 0⟩
  | some vs =>
    if s.duration = vs.duration then ⟨s, [], true, 0⟩
    else
      let s1 : State := { s with duration := vs.duration, startTime := now,
                                 timePaused := some 0 }
      let p := emitChain s1.eventCallbacks_ ["AdDurationChange"]
      ⟨s1, p.1, p.2, 0⟩

/-- startAd: build the markup from ads_[0] (throwing when ads_ is undefined
or empty), append it to the slot (throwing when the slot is null), record
the start wall-clock time, timePaused_ = 0, lastRemainingTime_ = -1,
isPaused_ = false, then dispatch AdStarted followed by AdImpression. -/
def startAd (now : ℚ) (s : State) : Res State :=
  match s.adsLen with
  | none => ⟨s, [], false, 0⟩
  | some 0 => ⟨s, [], false, 0⟩
  | some (_ + 1) =>
    if s.slotPresent = false then ⟨s, [], false, 0⟩
    else
      let s1 : State := { s with startTime := now, timePaused := some 0,
                                 lastRemainingTime := some (-1),
                                 isPaused := false }
      let p := emitChain s1.eventCallbacks_ ["AdStarted", "AdImpression"]
      ⟨s1, p.1, p.2, 0⟩

/-- setAdVolume: commit the value to attributes_, then dispatch the event
named 'AdVolumeChanged' (the name the source passes, with a trailing d). -/
def setAdVolume (value : ℚ) (s : State) : Res State :=
  let s1 : State := { s with volume := value }
  let p := emitChain s1.eventCallbacks_ ["AdVolumeChanged"]
  ⟨s1, p.1, p.2, 0⟩

/-- updateVideoPlayerSize_: sets size attributes on the video element, with
no try/catch, so it throws when the element is undefined. -/
def updateVideoPlayerSize_ (s : State) : Option State :=
  match s.videoSlot with
  | none => none
  | some _ => some s

/-- resizeAd: commit width, height and viewMode, re-layout the player
(throwing when the video element is undefined), then dispatch
AdSizeChange. -/
def resizeAd (width height : ℚ) (viewMode : String) (s : State) : Res State :=
  let s1 : State := { s with width := width, height := height, viewMode := viewMode }
  match updateVideoPlayerSize_ s1 with
  | none => ⟨s1, [], false, 0⟩
  | some s2 =>
    let p := emitChain s2.eventCallbacks_ ["AdSizeChange"]
    ⟨s2, p.1, p.2, 0⟩

/-- pauseAd: an unconditional early return while the linear attribute is
false; otherwise set isPaused_, record pauseStartTime_, pause the video
element (throwing when it is undefined), and dispatch AdPaused. -/
def pauseAd (now : ℚ) (s : State) : Res State :=
  if s.linear = false then ⟨s, [], true, 0⟩
  else
    let s1 : State := { s with isPaused := true, pauseStartTime := some now }
    match s1.videoSlot with
    | none => ⟨s1, [], false, 0⟩
    | some vs =>
      let s2 : State := { s1 with videoSlot := some { vs with paused := true } }
      let p := emitChain s2.eventCallbacks_ ["AdPaused"]
      ⟨s2, p.1, p.2, 0⟩

/-- resumeAd: clear isPaused_, add the elapsed pause span to timePaused_
(NaN when pauseStartTime_ or timePaused_ is undefined), play the video
element (throwing when it is undefined), and dispatch AdPlaying. -/
def resumeAd (now : ℚ) (s : State) : Res State :=
  let timePaused : Option ℚ :=
    match s.timePaused, s.pauseStartTime with
    | some tp, some ps => some (tp + (now - ps))
    | _, _ => none
  let s1 : State := { s with isPaused := false, timePaused := timePaused }
  match s1.videoSlot with
  | none => ⟨s1, [], false, 0⟩
  | some vs =>
    let s2 : State := { s1 with videoSlot := some { vs with paused := false } }
    let p := emitChain s2.eventCallbacks_ ["AdPlaying"]
    ⟨s2, p.1, p.2, 0⟩

/-- expandAd: set the expanded flag, dereference the ambient global `elem`
(a ReferenceError when it does not exist), request fullscreen when the
element supports it, then dispatch AdExpanded. -/
def expandAd (elem : Option Elem) (s : State) : Res State :=
  let s1 : State := { s with expanded := true }
  match elem with
  | none => ⟨s1, [], false, 0⟩
  | some e =>
    let fs := if e.hasRequestFullscreen then 1 else 0
    let p := emitChain s1.eventCallbacks_ ["AdExpanded"]
    ⟨s1, p.1, p.2, fs⟩

/-- collapseAd: clear the expanded flag; no event is dispatched. -/
def collapseAd (s : State) : Res State :=
  ⟨{ s with expanded := false }, [], true, 0⟩

/-- skipAd: dispatch AdSkipped only when skippableState is set. -/
def skipAd (s : State) : Res State :=
  if s.skippableState then
    let p := emitChain s.eventCallbacks_ ["AdSkipped"]
    ⟨s, p.1, p.2, 0⟩
  else ⟨s, [], true, 0⟩

/-- getAdRemainingTime: while paused return the stored snapshot without
recomputing; otherwise recompute duration minus elapsed unpaused wall-clock
seconds and store the result as the new snapshot. -/
def getAdRemainingTime (now : ℚ) (s : State) : Option ℚ × State :=
  if s.isPaused then (s.lastRemainingTime, s)
  else
    let remainingTime : Option ℚ := s.timePaused.map
      (fun tp => s.duration - (now - s.startTime - tp) / 1000)
    (remainingTime, { s with lastRemainingTime := remainingTime })

end VpaidNonLinear

/-- A concrete video element: 6-second clip positioned at its start. -/
def vsLin : VideoSlot := ⟨6, 0, 1, true⟩

/-- A linear ad after a successful initAd with one parsed ad entry and the
full documented event set subscribed. -/
def linReady : VpaidLinearAd.State :=
  { VpaidLinearAd.construct with
    slotPresent := true
    videoSlot := some vsLin
    eventsCallbacks_ := hostCbs
    adsLen := some 1 }

/-- A non-linear ad instance whose host subscribed the documented events. -/
def nlHost : VpaidNonLinear.State :=
  { VpaidNonLinear.construct with eventCallbacks_ := hostCbs }

/-- A non-linear ad after a successful initAd: slot and (hidden) video
element captured, one parsed ad entry. -/
def nlReady : VpaidNonLinear.State :=
  { nlHost with
    slotPresent := true
    videoSlot := some ⟨10, 0, 1, false⟩
    adsLen := some 1 }

/-- The non-linear ad right after startAd at wall-clock time 0. -/
def nlStarted : VpaidNonLinear.State :=
  { nlReady with
    startTime := 0
    timePaused := some 0
    lastRemainingTime := some (-1)
    isPaused := false }

/-- The non-linear ad after its overlay click converted it to linear. -/
def nlLinearized : VpaidNonLinear.State :=
  { nlStarted with linear := true }

/-- The linearized non-linear ad while paused (pauseAd ran at time 500). -/
def nlPausedFx : VpaidNonLinear.State :=
  { nlLinearized with isPaused := true, pauseStartTime := some 500 }

/-- The linear ad while playing, with the remaining-time interval installed
by resumeAd pending in the browser timer queue. -/
def linPlaying : VpaidLinearAd.State :=
  { linReady with
    intervalId := some 1
    timers := [⟨1, true, 250, "AdRemainingTimeChange"⟩]
    nextTimerId := 2 }

/-- C1: the claim says that after unsubscribe(e) a dispatch of e is a silent
no-op and that dispatching with no live subscriber never throws.  The code
violates this: unsubscribe assigns null, so the key stays present, the
`in` check passes and the dispatch invokes null (a TypeError), in both
adapters; the non-linear click handler invokes the AdClickThru callback
with no presence check at all and throws when no one subscribed.  Only a
never-written event name is dispatched as a silent no-op. -/
theorem c1_unsubscribed_dispatch_throws :
    VpaidLinearAd.callEvent_
      (VpaidLinearAd.unsubscribe
        (VpaidLinearAd.subscribe (fun _ => .missing) "AdLoaded") "AdLoaded")
      "AdLoaded" = none
  ∧ VpaidLinearAd.callEvent_ (fun _ => .missing) "AdLoaded" = some []
  ∧ VpaidNonLinear.invokeCallback_
      (VpaidNonLinear.unsubscribe
        (VpaidNonLinear.subscribe (fun _ => .missing) "AdClickThru")
        "AdClickThru")
      "AdClickThru" = none
  ∧ (VpaidNonLinear.adsOnClick_ VpaidNonLinear.construct).ok = false
  ∧ (VpaidNonLinear.adsOnClick_ VpaidNonLinear.construct).evs = [] := by
  decide

/-- C4 counterexample: resumeAd on the freshly constructed linear adapter
(state Unstarted, before initAd) dereferences the null video element and
throws instead of being absorbed as a no-op, refuting the claim that
out-of-turn lifecycle operations never raise an error. -/
theorem c4_counterexample :
    (VpaidLinearAd.resumeAd VpaidLinearAd.construct).ok = false
  ∧ (VpaidLinearAd.resumeAd VpaidLinearAd.construct).evs = [] := by
  decide

/-- C4 amended: out-of-turn lifecycle operations are not absorbed: resumeAd
while Unstarted throws a TypeError on the absent video element in both
variants; only the explicitly guarded operations are silent no-ops
(non-linear pauseAd while the linear attribute is false, and skipAd while
skippableState is false). -/
theorem c4_amended_not_absorbed :
    (VpaidLinearAd.resumeAd VpaidLinearAd.construct).ok = false
  ∧ (VpaidNonLinear.resumeAd 0 VpaidNonLinear.construct).ok = false
  ∧ (VpaidNonLinear.pauseAd 0 VpaidNonLinear.construct).st
      = VpaidNonLinear.construct
  ∧ (VpaidNonLinear.pauseAd 0 VpaidNonLinear.construct).evs = []
  ∧ (VpaidNonLinear.pauseAd 0 VpaidNonLinear.construct).ok = true
  ∧ (VpaidLinearAd.skipAd VpaidLinearAd.construct).st
      = VpaidLinearAd.construct
  ∧ (VpaidLinearAd.skipAd VpaidLinearAd.construct).evs = []
  ∧ (VpaidLinearAd.skipAd VpaidLinearAd.construct).ok = true := by
  exact ⟨rfl, rfl, rfl, rfl, rfl, rfl, rfl, rfl⟩

/-- C5: in both variants expandAd sets the expanded flag, issues exactly one
fullscreen request to the ambient target (when it exists and supports
requestFullscreen), and dispatches AdExpanded exactly once; collapseAd
clears the flag and dispatches nothing. -/
theorem c5_expand_collapse (e : Elem) (sL : VpaidLinearAd.State)
    (sN : VpaidNonLinear.State)
    (hE : e.hasRequestFullscreen = true)
    (hL : sL.eventsCallbacks_ "AdExpanded" = .fn)
    (hN : sN.eventCallbacks_ "AdExpanded" = .fn) :
    ((VpaidLinearAd.expandAd (some e) sL).st.expanded = true
      ∧ (VpaidLinearAd.expandAd (some e) sL).evs = ["AdExpanded"]
      ∧ (VpaidLinearAd.expandAd (some e) sL).fsReqs = 1
      ∧ (VpaidLinearAd.expandAd (some e) sL).ok = true)
  ∧ ((VpaidNonLinear.expandAd (some e) sN).st.expanded = true
      ∧ (VpaidNonLinear.expandAd (some e) sN).evs = ["AdExpanded"]
      ∧ (VpaidNonLinear.expandAd (some e) sN).fsReqs = 1
      ∧ (VpaidNonLinear.expandAd (some e) sN).ok = true)
  ∧ ((VpaidLinearAd.collapseAd sL).st.expanded = false
      ∧ (VpaidLinearAd.collapseAd sL).evs = []
      ∧ (VpaidLinearAd.collapseAd sL).fsReqs = 0)
  ∧ ((VpaidNonLinear.collapseAd sN).st.expanded = false
      ∧ (VpaidNonLinear.collapseAd sN).evs = []
      ∧ (VpaidNonLinear.collapseAd sN).fsReqs = 0) := by
  simp [VpaidLinearAd.expandAd, VpaidNonLinear.expandAd,
        VpaidLinearAd.collapseAd, VpaidNonLinear.collapseAd,
        emitChain, hE, hL, hN]

/-- C5 witness: the expand/collapse contract evaluated on the concrete
initialized states with a fullscreen-capable ambient target. -/
theorem c5_expand_collapse_witness :
    (VpaidLinearAd.expandAd (some ⟨true⟩) linReady).evs = ["AdExpanded"]
  ∧ (VpaidNonLinear.collapseAd nlReady).st.expanded = false :=
  ⟨(c5_expand_collapse ⟨true⟩ linReady nlReady rfl (by decide)
      (by decide)).1.2.1,
   (c5_expand_collapse ⟨true⟩ linReady nlReady rfl (by decide)
      (by decide)).2.2.2.1⟩

/-- C6: the claim says setAdVolume commits the value and then dispatches
AdVolumeChange in both adapters.  The linear adapter does; the non-linear
adapter commits the value but dispatches the misspelled name
'AdVolumeChanged', which is not in the documented emitted-event set, so a
host subscribed to every documented event (hostCbs) never receives a
volume-change callback from it. -/
theorem c6_nonlinear_volume_event_misnamed :
    (VpaidNonLinear.setAdVolume 30 nlHost).st.volume = 30
  ∧ (VpaidNonLinear.setAdVolume 30 nlHost).evs = []
  ∧ (VpaidNonLinear.setAdVolume 30 nlHost).ok = true
  ∧ "AdVolumeChanged" ∉ hostEvents
  ∧ "AdVolumeChange" ∈ hostEvents
  ∧ (VpaidLinearAd.setAdVolume 30 linReady).st.volume = 30
  ∧ (VpaidLinearAd.setAdVolume 30 linReady).evs = ["AdVolumeChange"] := by
  decide

/-- C7 counterexample: on the freshly started non-linear ad the linear
attribute is still false, so pauseAd returns without pausing; two
subsequent getAdRemainingTime samples with wall-clock time advancing
(1000 then 2000 ms after start of a 10-second ad) return 9 and then 8
seconds — not the identical frozen value the claim requires after
pauseAd. -/
theorem c7_counterexample :
    (VpaidNonLinear.getAdRemainingTime 1000
        ((VpaidNonLinear.pauseAd 500 nlStarted).st)).1 = some 9
  ∧ (VpaidNonLinear.getAdRemainingTime 2000
        ((VpaidNonLinear.getAdRemainingTime 1000
            ((VpaidNonLinear.pauseAd 500 nlStarted).st)).2)).1 = some 8
  ∧ (VpaidNonLinear.getAdRemainingTime 1000
        ((VpaidNonLinear.pauseAd 500 nlStarted).st)).1
      ≠ (VpaidNonLinear.getAdRemainingTime 2000
          ((VpaidNonLinear.getAdRemainingTime 1000
              ((VpaidNonLinear.pauseAd 500 nlStarted).st)).2)).1 := by
  norm_num [VpaidNonLinear.pauseAd, VpaidNonLinear.getAdRemainingTime,
            nlStarted, nlReady, nlHost, VpaidNonLinear.construct]

/-- C7 amended: provided the ad has become linear (pauseAd is an
unconditional early return while the linear attribute is false), after
pauseAd successive getAdRemainingTime calls with time advancing return the
identical stored snapshot; after resumeAd successive calls return strictly
decreasing values, computed as duration minus elapsed unpaused wall-clock
time, (now - startTime - timePaused) / 1000 seconds. -/
theorem c7_amended_freeze_and_decrease
    (s s2 : VpaidNonLinear.State) (vs vs2 : VideoSlot)
    (tPause t1 t2 a p tr u1 u2 : ℚ)
    (hLin : s.linear = true) (hVs : s.videoSlot = some vs)
    (hTP : s2.timePaused = some a) (hPS : s2.pauseStartTime = some p)
    (hVs2 : s2.videoSlot = some vs2) (hU : u1 < u2) :
    ((VpaidNonLinear.getAdRemainingTime t1
        ((VpaidNonLinear.pauseAd tPause s).st)).1 = s.lastRemainingTime
      ∧ (VpaidNonLinear.getAdRemainingTime t2
          ((VpaidNonLinear.getAdRemainingTime t1
              ((VpaidNonLinear.pauseAd tPause s).st)).2)).1
        = s.lastRemainingTime)
  ∧ (∃ q1 q2 : ℚ,
      (VpaidNonLinear.getAdRemainingTime u1
          ((VpaidNonLinear.resumeAd tr s2).st)).1 = some q1
      ∧ (VpaidNonLinear.getAdRemainingTime u2
          ((VpaidNonLinear.getAdRemainingTime u1
              ((VpaidNonLinear.resumeAd tr s2).st)).2)).1 = some q2
      ∧ q2 < q1
      ∧ q1 = s2.duration
          - (u1 - s2.startTime - (a + (tr - p))) / 1000) := by
  constructor
  · simp [VpaidNonLinear.pauseAd, VpaidNonLinear.getAdRemainingTime,
          hLin, hVs, emitChain]
  · refine ⟨s2.duration - (u1 - s2.startTime - (a + (tr - p))) / 1000,
            s2.duration - (u2 - s2.startTime - (a + (tr - p))) / 1000,
            ?_, ?_, ?_, rfl⟩
    · simp [VpaidNonLinear.resumeAd, VpaidNonLinear.getAdRemainingTime,
            hTP, hPS, hVs2, emitChain]
    · simp [VpaidNonLinear.resumeAd, VpaidNonLinear.getAdRemainingTime,
            hTP, hPS, hVs2, emitChain]
    · linarith

/-- C7 amended witness: the freeze and strict decrease evaluated on the
concrete linearized non-linear ad. -/
theorem c7_amended_freeze_and_decrease_witness :
    (VpaidNonLinear.getAdRemainingTime 1000
        ((VpaidNonLinear.pauseAd 500 nlLinearized).st)).1
      = nlLinearized.lastRemainingTime
  ∧ (∃ q1 q2 : ℚ,
      (VpaidNonLinear.getAdRemainingTime 2000
          ((VpaidNonLinear.resumeAd 1500 nlPausedFx).st)).1 = some q1
      ∧ (VpaidNonLinear.getAdRemainingTime 3000
          ((VpaidNonLinear.getAdRemainingTime 2000
              ((VpaidNonLinear.resumeAd 1500 nlPausedFx).st)).2)).1 = some q2
      ∧ q2 < q1
      ∧ q1 = nlPausedFx.duration
          - (2000 - nlPausedFx.startTime - (0 + (1500 - 500))) / 1000) :=
  ⟨(c7_amended_freeze_and_decrease nlLinearized nlPausedFx ⟨10, 0, 1, false⟩
      ⟨10, 0, 1, false⟩ 500 1000 2000 0 500 1500 2000 3000 rfl rfl rfl rfl
      rfl (by norm_num)).1.1,
   (c7_amended_freeze_and_decrease nlLinearized nlPausedFx ⟨10, 0, 1, false⟩
      ⟨10, 0, 1, false⟩ 500 1000 2000 0 500 1500 2000 3000 rfl rfl rfl rfl
      rfl (by norm_num)).2⟩

/-- Helper: every entry of the quartile schedule is a quartile name. -/
lemma quartile_name_mem (i : Nat) (h : i < 6) :
    ((VpaidLinearAd.quartileEvents_[i]?).getD ("", 0)).1
      ∈ VpaidLinearAd.quartileNames := by
  interval_cases i <;> decide

/-- Helper: no quartile schedule entry is named AdDurationChange. -/
lemma quartile_name_ne_dc (i : Nat) (h : i < 6) :
    ((VpaidLinearAd.quartileEvents_[i]?).getD ("", 0)).1
      ≠ "AdDurationChange" := by
  interval_cases i <;> decide

/-- Helper: full characterisation of the duration-check tail when the host
holds a live AdDurationChange callback: it never throws, always ends with
the media duration stored, and appends the change event exactly when the
stored and media durations differ. -/
lemma durationCheck_spec (s : VpaidLinearAd.State) (vs : VideoSlot)
    (acc : List String)
    (hD : s.eventsCallbacks_ "AdDurationChange" = .fn) :
    (VpaidLinearAd.durationCheck s vs acc).ok = true
  ∧ (VpaidLinearAd.durationCheck s vs acc).st.duration = vs.duration
  ∧ (VpaidLinearAd.durationCheck s vs acc).evs
      = acc ++ (if s.duration = vs.duration then [] else ["AdDurationChange"]) := by
  unfold VpaidLinearAd.durationCheck
  split
  · next h => simp [h]
  · next h => simp [VpaidLinearAd.callEvent_, hD, h]

/-- C8: for the media-reported duration updates of both variants, updating
to a value equal to the stored duration fires no AdDurationChange and (in
the non-linear listener) leaves the state untouched, while updating to a
different value commits the new value and fires AdDurationChange exactly
once. -/
theorem c8_duration_idempotent (sL : VpaidLinearAd.State) (vs : VideoSlot)
    (sN : VpaidNonLinear.State) (vsN : VideoSlot) (now : ℚ)
    (hVL : sL.videoSlot = some vs)
    (hQ : sL.lastQuartileIndex < VpaidLinearAd.quartileEvents_.length)
    (hF : ∀ n ∈ VpaidLinearAd.quartileNames, sL.eventsCallbacks_ n = .fn)
    (hD : sL.eventsCallbacks_ "AdDurationChange" = .fn)
    (hVN : sN.videoSlot = some vsN)
    (hDN : sN.eventCallbacks_ "AdDurationChange" = .fn) :
    ((VpaidLinearAd.timeUpdateHandler_ sL).ok = true
      ∧ (VpaidLinearAd.timeUpdateHandler_ sL).st.duration = vs.duration
      ∧ (VpaidLinearAd.timeUpdateHandler_ sL).evs.count "AdDurationChange"
          = (if sL.duration = vs.duration then 0 else 1))
  ∧ ((VpaidNonLinear.loadedMetadataListener_ now sN).ok = true
      ∧ (VpaidNonLinear.loadedMetadataListener_ now sN).st.duration
          = vsN.duration
      ∧ (VpaidNonLinear.loadedMetadataListener_ now sN).evs
          = (if sN.duration = vsN.duration then [] else ["AdDurationChange"])
      ∧ (sN.duration = vsN.duration →
          (VpaidNonLinear.loadedMetadataListener_ now sN).st = sN)) := by
  constructor
  · have hidx : sL.lastQuartileIndex < 6 := by
      simpa [VpaidLinearAd.quartileEvents_] using hQ
    have hfn : sL.eventsCallbacks_
        (((VpaidLinearAd.quartileEvents_[sL.lastQuartileIndex]?).getD ("", 0)).1)
          = .fn :=
      hF _ (quartile_name_mem sL.lastQuartileIndex hidx)
    have hne : "AdDurationChange"
        ≠ ((VpaidLinearAd.quartileEvents_[sL.lastQuartileIndex]?).getD ("", 0)).1 :=
      (quartile_name_ne_dc sL.lastQuartileIndex hidx).symm
    have hQn : ¬ (VpaidLinearAd.quartileEvents_.length ≤ sL.lastQuartileIndex) :=
      Nat.not_le.mpr hQ
    by_cases hcross :
        ((VpaidLinearAd.quartileEvents_[sL.lastQuartileIndex]?).getD ("", 0)).2
          ≤ vs.currentTime * 100 / vs.duration
    · obtain ⟨dc1, dc2, dc3⟩ := durationCheck_spec
        { sL with videoSlot := some vs,
                  remainingTime := vs.duration - vs.currentTime,
                  lastQuartileIndex := sL.lastQuartileIndex + 1 } vs
        [((VpaidLinearAd.quartileEvents_[sL.lastQuartileIndex]?).getD ("", 0)).1]
        hD
      by_cases hdur : sL.duration = vs.duration <;>
        [simp only [hdur] at dc1 dc2 dc3 ⊢; skip] <;>
        simp [VpaidLinearAd.timeUpdateHandler_, hVL, hQn, hcross, hfn, hdur,
              List.count_append, List.count_cons, hne] at dc1 dc2 dc3 ⊢ <;>
        simp [dc1, dc2, dc3, List.count_cons, hne]
    · obtain ⟨dc1, dc2, dc3⟩ := durationCheck_spec
        { sL with videoSlot := some vs,
                  remainingTime := vs.duration - vs.currentTime } vs [] hD
      by_cases hdur : sL.duration = vs.duration <;>
        [simp only [hdur] at dc1 dc2 dc3 ⊢; skip] <;>
        simp [VpaidLinearAd.timeUpdateHandler_, hVL, hQn, hcross, hdur,
              List.count_cons] at dc1 dc2 dc3 ⊢ <;>
        simp [dc1, dc2, dc3]
  · by_cases hdn : sN.duration = vsN.duration <;>
      simp [VpaidNonLinear.loadedMetadataListener_, hVN, hdn, emitChain, hDN]

/-- C8 witness: the idempotent duration update evaluated on the concrete
initialized states, whose stored durations equal the media durations. -/
theorem c8_duration_idempotent_witness :
    (VpaidLinearAd.timeUpdateHandler_ linReady).evs.count "AdDurationChange"
      = 0
  ∧ (VpaidNonLinear.loadedMetadataListener_ 0 nlReady).st = nlReady := by
  have h := c8_duration_idempotent linReady vsLin nlReady ⟨10, 0, 1, false⟩ 0
    rfl (by decide) (by decide) (by decide) rfl (by decide)
  exact ⟨by simpa using h.1.2.2, h.2.2.2.2 rfl⟩

/-- Helper: after the clearInterval pattern runs, no interval timer remains,
provided every pending interval is the one tracked by intervalId_. -/
lemma clearTheInterval_no_intervals (s : VpaidLinearAd.State)
    (hInv : ∀ t ∈ s.timers, t.isInterval = true → s.intervalId = some t.id) :
    ∀ t ∈ (VpaidLinearAd.clearTheInterval s).timers, t.isInterval = false := by
  intro t ht
  by_contra hb
  have hbi : t.isInterval = true := by
    cases h : t.isInterval
    · exact absurd h hb
    · rfl
  unfold VpaidLinearAd.clearTheInterval at ht
  rcases hI : s.intervalId with _ | i
  · rw [hI] at ht
    have h2 := hInv t ht hbi
    rw [hI] at h2
    exact Option.noConfusion h2
  · rw [hI] at ht
    have hmem := List.mem_filter.mp ht
    have h2 := hInv t hmem.1 hbi
    rw [hI] at h2
    have hii : i = t.id := Option.some.inj h2
    have hf := hmem.2
    simp [hii] at hf

/-- Helper: the clearInterval pattern never removes a timer whose id is not
the tracked interval id. -/
lemma clearTheInterval_keeps (s : VpaidLinearAd.State) (t : Timer)
    (ht : t ∈ s.timers) (hne : s.intervalId ≠ some t.id) :
    t ∈ (VpaidLinearAd.clearTheInterval s).timers := by
  unfold VpaidLinearAd.clearTheInterval
  rcases hI : s.intervalId with _ | i
  · simpa using ht
  · rw [hI] at hne
    have hid : t.id ≠ i := by
      intro h
      exact hne (by rw [h])
    simp [List.mem_filter, ht, hid]

/-- Helper: the clearInterval pattern does not touch the fresh-id counter. -/
lemma clearTheInterval_nextTimerId (s : VpaidLinearAd.State) :
    (VpaidLinearAd.clearTheInterval s).nextTimerId = s.nextTimerId := by
  unfold VpaidLinearAd.clearTheInterval
  cases s.intervalId <;> rfl

/-- C9: stopAd dispatches nothing synchronously and leaves a 75-unit
timeout carrying AdStopped pending, with every pending interval timer
cancelled within the call itself; pauseAd also cancels every pending
interval within the call; and neither stopAd, pauseAd nor resumeAd ever
removes a pending (non-interval) timeout such as the deferred AdStopped
dispatch.  The invariant hypotheses say that every pending interval is the
one tracked by intervalId_ and that timer ids are not shared, which hold
of the ids handed out by the timer queue. -/
theorem c9_stop_pause_timer_discipline (s : VpaidLinearAd.State)
    (vs : VideoSlot)
    (hVs : s.videoSlot = some vs)
    (hP : s.eventsCallbacks_ "AdPaused" = .fn)
    (hPl : s.eventsCallbacks_ "AdPlaying" = .fn)
    (hInv : ∀ t ∈ s.timers, t.isInterval = true → s.intervalId = some t.id)
    (hIds : ∀ t ∈ s.timers, t.isInterval = false → s.intervalId ≠ some t.id) :
    ((VpaidLinearAd.stopAd s).evs = [] ∧ (VpaidLinearAd.stopAd s).ok = true)
  ∧ (∀ t ∈ (VpaidLinearAd.stopAd s).st.timers,
      t.isInterval = false ∨ t = ⟨s.nextTimerId, false, 75, "AdStopped"⟩)
  ∧ (⟨s.nextTimerId, false, 75, "AdStopped"⟩ : Timer)
      ∈ (VpaidLinearAd.stopAd s).st.timers
  ∧ ((VpaidLinearAd.pauseAd s).evs = ["AdPaused"]
      ∧ (VpaidLinearAd.pauseAd s).ok = true
      ∧ ∀ t ∈ (VpaidLinearAd.pauseAd s).st.timers, t.isInterval = false)
  ∧ (∀ t ∈ s.timers, t.isInterval = false →
      (t ∈ (VpaidLinearAd.stopAd s).st.timers
        ∧ t ∈ (VpaidLinearAd.pauseAd s).st.timers
        ∧ t ∈ (VpaidLinearAd.resumeAd s).st.timers)) := by
  have hstop : (VpaidLinearAd.stopAd s).st.timers
      = (VpaidLinearAd.clearTheInterval s).timers
        ++ [⟨s.nextTimerId, false, 75, "AdStopped"⟩] := by
    simp [VpaidLinearAd.stopAd, clearTheInterval_nextTimerId]
  have hps : (VpaidLinearAd.pauseAd s).st
      = VpaidLinearAd.clearTheInterval
          { s with videoSlot := some { vs with paused := true } } := by
    simp [VpaidLinearAd.pauseAd, hVs, emitChain, hP]
  have hrs : (VpaidLinearAd.resumeAd s).st.timers
      = s.timers ++ [⟨s.nextTimerId, true, 250, "AdRemainingTimeChange"⟩] := by
    simp [VpaidLinearAd.resumeAd, hVs, emitChain, hPl]
  refine ⟨⟨rfl, rfl⟩, ?_, ?_, ?_, ?_⟩
  · intro t ht
    rw [hstop] at ht
    rcases List.mem_append.mp ht with h | h
    · exact Or.inl (clearTheInterval_no_intervals s hInv t h)
    · exact Or.inr (by simpa using h)
  · rw [hstop]
    exact List.mem_append.mpr (Or.inr (by simp))
  · refine ⟨?_, ?_, ?_⟩
    · simp [VpaidLinearAd.pauseAd, hVs, emitChain, hP]
    · simp [VpaidLinearAd.pauseAd, hVs, emitChain, hP]
    · intro t ht
      rw [hps] at ht
      exact clearTheInterval_no_intervals
        { s with videoSlot := some { vs with paused := true } } hInv t ht
  · intro t ht hti
    refine ⟨?_, ?_, ?_⟩
    · rw [hstop]
      exact List.mem_append.mpr
        (Or.inl (clearTheInterval_keeps s t ht (hIds t ht hti)))
    · rw [hps]
      exact clearTheInterval_keeps
        { s with videoSlot := some { vs with paused := true } } t ht
        (hIds t ht hti)
    · rw [hrs]
      exact List.mem_append.mpr (Or.inl ht)

/-- C9 witness: the timer discipline evaluated on the playing linear ad
with its remaining-time interval pending. -/
theorem c9_stop_pause_timer_discipline_witness :
    ((VpaidLinearAd.stopAd linPlaying).evs = []
      ∧ (VpaidLinearAd.stopAd linPlaying).ok = true)
  ∧ (⟨linPlaying.nextTimerId, false, 75, "AdStopped"⟩ : Timer)
      ∈ (VpaidLinearAd.stopAd linPlaying).st.timers :=
  ⟨(c9_stop_pause_timer_discipline linPlaying vsLin rfl (by decide)
      (by decide) (by decide) (by decide)).1,
   (c9_stop_pause_timer_discipline linPlaying vsLin rfl (by decide)
      (by decide) (by decide) (by decide)).2.2.1⟩

/-- C10: resizeAd commits exactly width, height and viewMode, dispatches
exactly one AdSizeChange, and leaves every other stored attribute (volume,
duration, linear, expanded, skippableState, companions, icons,
desiredBitrate) unchanged, in both variants. -/
theorem c10_resize_frame (sL : VpaidLinearAd.State)
    (sN : VpaidNonLinear.State) (vsN : VideoSlot) (w h : ℚ) (vm : String)
    (hL : sL.eventsCallbacks_ "AdSizeChange" = .fn)
    (hN : sN.eventCallbacks_ "AdSizeChange" = .fn)
    (hV : sN.videoSlot = some vsN) :
    ((VpaidLinearAd.resizeAd w h vm sL).ok = true
      ∧ (VpaidLinearAd.resizeAd w h vm sL).st.width = w
      ∧ (VpaidLinearAd.resizeAd w h vm sL).st.height = h
      ∧ (VpaidLinearAd.resizeAd w h vm sL).st.viewMode = vm
      ∧ (VpaidLinearAd.resizeAd w h vm sL).evs = ["AdSizeChange"]
      ∧ (VpaidLinearAd.resizeAd w h vm sL).st.volume = sL.volume
      ∧ (VpaidLinearAd.resizeAd w h vm sL).st.duration = sL.duration
      ∧ (VpaidLinearAd.resizeAd w h vm sL).st.linear = sL.linear
      ∧ (VpaidLinearAd.resizeAd w h vm sL).st.expanded = sL.expanded
      ∧ (VpaidLinearAd.resizeAd w h vm sL).st.skippableState
          = sL.skippableState
      ∧ (VpaidLinearAd.resizeAd w h vm sL).st.companions = sL.companions
      ∧ (VpaidLinearAd.resizeAd w h vm sL).st.icons = sL.icons
      ∧ (VpaidLinearAd.resizeAd w h vm sL).st.desiredBitrate
          = sL.desiredBitrate)
  ∧ ((VpaidNonLinear.resizeAd w h vm sN).ok = true
      ∧ (VpaidNonLinear.resizeAd w h vm sN).st.width = w
      ∧ (VpaidNonLinear.resizeAd w h vm sN).st.height = h
      ∧ (VpaidNonLinear.resizeAd w h vm sN).st.viewMode = vm
      ∧ (VpaidNonLinear.resizeAd w h vm sN).evs = ["AdSizeChange"]
      ∧ (VpaidNonLinear.resizeAd w h vm sN).st.volume = sN.volume
      ∧ (VpaidNonLinear.resizeAd w h vm sN).st.duration = sN.duration
      ∧ (VpaidNonLinear.resizeAd w h vm sN).st.linear = sN.linear
      ∧ (VpaidNonLinear.resizeAd w h vm sN).st.expanded = sN.expanded
      ∧ (VpaidNonLinear.resizeAd w h vm sN).st.skippableState
          = sN.skippableState
      ∧ (VpaidNonLinear.resizeAd w h vm sN).st.companions = sN.companions
      ∧ (VpaidNonLinear.resizeAd w h vm sN).st.icons = sN.icons
      ∧ (VpaidNonLinear.resizeAd w h vm sN).st.desiredBitrate
          = sN.desiredBitrate) := by
  simp [VpaidLinearAd.resizeAd, VpaidNonLinear.resizeAd,
        VpaidLinearAd.updateVideoPlayerSize_,
        VpaidNonLinear.updateVideoPlayerSize_, emitChain, hL, hN, hV]

/-- Helper: the duration-check tail of timeUpdateHandler_ only ever appends
to the event list it is given. -/
lemma durationCheck_evs_append (s : VpaidLinearAd.State) (vs : VideoSlot)
    (acc : List String) :
    ∃ l, (VpaidLinearAd.durationCheck s vs acc).evs = acc ++ l := by
  unfold VpaidLinearAd.durationCheck
  split
  · exact ⟨[], by simp⟩
  · dsimp only
    split
    · exact ⟨_, rfl⟩
    · exact ⟨[], by simp⟩

/-- Helper: the duration-check tail keeps the head of a nonempty event list
it is given. -/
lemma durationCheck_evs_head (s : VpaidLinearAd.State) (vs : VideoSlot)
    (e : String) (r : List String) :
    (VpaidLinearAd.durationCheck s vs (e :: r)).evs.head? = some e := by
  obtain ⟨l, hl⟩ := durationCheck_evs_append s vs (e :: r)
  rw [hl]
  simp

/-- Helper: the duration-check tail does not move the quartile cursor. -/
lemma durationCheck_idx (s : VpaidLinearAd.State) (vs : VideoSlot)
    (acc : List String) :
    (VpaidLinearAd.durationCheck s vs acc).st.lastQuartileIndex
      = s.lastQuartileIndex := by
  unfold VpaidLinearAd.durationCheck
  split
  · rfl
  · dsimp only
    split <;> rfl

/-- Helper: the duration-check tail does not change the callbacks object. -/
lemma durationCheck_cbs (s : VpaidLinearAd.State) (vs : VideoSlot)
    (acc : List String) :
    (VpaidLinearAd.durationCheck s vs acc).st.eventsCallbacks_
      = s.eventsCallbacks_ := by
  unfold VpaidLinearAd.durationCheck
  split
  · rfl
  · dsimp only
    split <;> rfl

/-- Helper: a time update never changes the callbacks object. -/
lemma timeUpdateHandler_cbs (s : VpaidLinearAd.State) :
    (VpaidLinearAd.timeUpdateHandler_ s).st.eventsCallbacks_
      = s.eventsCallbacks_ := by
  unfold VpaidLinearAd.timeUpdateHandler_
  split
  · rfl
  · dsimp only
    split
    · rfl
    · split
      · split
        · exact durationCheck_cbs _ _ _
        · rfl
      · exact durationCheck_cbs _ _ _

/-- Helper: the first unfired quartile name, as a one-element segment of the
schedule name list. -/
lemma quartile_drop_take_one (i : Nat) (h : i < 6) :
    (VpaidLinearAd.quartileNames.drop i).take 1
      = [((VpaidLinearAd.quartileEvents_[i]?).getD ("", 0)).1] := by
  interval_cases i <;> decide

/-- Helper: the AdDurationChange tail contributes no quartile event. -/
lemma filter_dc_tail (c : Prop) [Decidable c] :
    (if c then ([] : List String) else ["AdDurationChange"]).filter
      (fun e => e ∈ VpaidLinearAd.quartileNames) = [] := by
  split <;> decide

/-- Helper: two adjacent contiguous segments of a list glue into one. -/
lemma segment_glue (l : List String) (i j k : Nat) (h1 : i ≤ j)
    (h2 : j ≤ k) :
    (l.drop i).take (j - i) ++ (l.drop j).take (k - j)
      = (l.drop i).take (k - i) := by
  have hk : k - i = (j - i) + (k - j) := by omega
  have hij : i + (j - i) = j := by omega
  rw [hk, List.take_add]
  congr 1
  rw [List.drop_drop, hij]

/-- Helper (single-step quartile contract): one time update advances the
quartile cursor by zero or one, never rewinds it, and the quartile events
it fires are exactly the schedule names from the old cursor to the new
one — in particular at most one quartile event per call. -/
lemma timeUpdate_step (s : VpaidLinearAd.State) (vs : VideoSlot)
    (hF : ∀ n ∈ VpaidLinearAd.quartileNames, s.eventsCallbacks_ n = .fn)
    (hD : s.eventsCallbacks_ "AdDurationChange" = .fn) :
    s.lastQuartileIndex
        ≤ (VpaidLinearAd.timeUpdateHandler_
            { s with videoSlot := some vs }).st.lastQuartileIndex
  ∧ (VpaidLinearAd.timeUpdateHandler_
        { s with videoSlot := some vs }).st.lastQuartileIndex
      ≤ s.lastQuartileIndex + 1
  ∧ (VpaidLinearAd.timeUpdateHandler_
        { s with videoSlot := some vs }).evs.filter
          (fun e => e ∈ VpaidLinearAd.quartileNames)
      = (VpaidLinearAd.quartileNames.drop s.lastQuartileIndex).take
          ((VpaidLinearAd.timeUpdateHandler_
              { s with videoSlot := some vs }).st.lastQuartileIndex
            - s.lastQuartileIndex) := by
  by_cases h6 : VpaidLinearAd.quartileEvents_.length ≤ s.lastQuartileIndex
  · simp [VpaidLinearAd.timeUpdateHandler_, h6]
  · have hidx : s.lastQuartileIndex < 6 := by
      simpa [VpaidLinearAd.quartileEvents_] using Nat.lt_of_not_le h6
    have hfn : s.eventsCallbacks_
        (((VpaidLinearAd.quartileEvents_[s.lastQuartileIndex]?).getD ("", 0)).1)
          = .fn :=
      hF _ (quartile_name_mem s.lastQuartileIndex hidx)
    by_cases hcross :
        ((VpaidLinearAd.quartileEvents_[s.lastQuartileIndex]?).getD ("", 0)).2
          ≤ vs.currentTime * 100 / vs.duration
    · obtain ⟨dc1, dc2, dc3⟩ := durationCheck_spec
        { s with videoSlot := some vs,
                 remainingTime := vs.duration - vs.currentTime,
                 lastQuartileIndex := s.lastQuartileIndex + 1 } vs
        [((VpaidLinearAd.quartileEvents_[s.lastQuartileIndex]?).getD ("", 0)).1]
        hD
      simp only [VpaidLinearAd.timeUpdateHandler_, List.getD_eq_getElem?_getD,
        h6, hcross, hfn, if_false, ite_false, ite_true, dc3, durationCheck_idx]
      refine ⟨by omega, by omega, ?_⟩
      rw [List.filter_append, filter_dc_tail]
      have hq := quartile_name_mem s.lastQuartileIndex hidx
      simp [Nat.add_sub_cancel_left, quartile_drop_take_one _ hidx, hq]
    · obtain ⟨dc1, dc2, dc3⟩ := durationCheck_spec
        { s with videoSlot := some vs,
                 remainingTime := vs.duration - vs.currentTime } vs [] hD
      simp only [VpaidLinearAd.timeUpdateHandler_, List.getD_eq_getElem?_getD,
        h6, hcross, hfn, if_false, ite_false, ite_true, dc3, durationCheck_idx]
      refine ⟨le_refl _, by omega, ?_⟩
      rw [List.nil_append, filter_dc_tail]
      simp

/-- Helper (run-level quartile contract): over any sequence of time
updates, the quartile cursor only advances, and the quartile events fired
are exactly the contiguous segment of the schedule names from the starting
cursor to the final cursor, in schedule order — so no quartile event is
ever skipped over, repeated, or reordered. -/
lemma runTimeUpdates_spec (samples : List VideoSlot) :
    ∀ (s : VpaidLinearAd.State),
    (∀ n ∈ VpaidLinearAd.quartileNames, s.eventsCallbacks_ n = .fn) →
    s.eventsCallbacks_ "AdDurationChange" = .fn →
    s.lastQuartileIndex
        ≤ (VpaidLinearAd.runTimeUpdates s samples).1.lastQuartileIndex
    ∧ (VpaidLinearAd.runTimeUpdates s samples).2.filter
        (fun e => e ∈ VpaidLinearAd.quartileNames)
      = (VpaidLinearAd.quartileNames.drop s.lastQuartileIndex).take
          ((VpaidLinearAd.runTimeUpdates s samples).1.lastQuartileIndex
            - s.lastQuartileIndex) := by
  induction samples with
  | nil =>
    intro s hF hD
    simp [VpaidLinearAd.runTimeUpdates]
  | cons vs rest ih =>
    intro s hF hD
    obtain ⟨m1, m2, m3⟩ := timeUpdate_step s vs hF hD
    have hcbs := timeUpdateHandler_cbs { s with videoSlot := some vs }
    have hF2 : ∀ n ∈ VpaidLinearAd.quartileNames,
        (VpaidLinearAd.timeUpdateHandler_
          { s with videoSlot := some vs }).st.eventsCallbacks_ n = .fn := by
      intro n hn
      rw [hcbs]
      exact hF n hn
    have hD2 : (VpaidLinearAd.timeUpdateHandler_
        { s with videoSlot := some vs }).st.eventsCallbacks_
          "AdDurationChange" = .fn := by
      rw [hcbs]
      exact hD
    obtain ⟨r1, r2⟩ := ih (VpaidLinearAd.timeUpdateHandler_
      { s with videoSlot := some vs }).st hF2 hD2
    constructor
    · simp only [VpaidLinearAd.runTimeUpdates]
      exact le_trans m1 r1
    · simp only [VpaidLinearAd.runTimeUpdates]
      rw [List.filter_append, m3, r2]
      exact segment_glue VpaidLinearAd.quartileNames _ _ _ m1 r1

/-- C2 counterexample: on the freshly initialized linear ad (cursor 0, all
documented events live) a single time update at percent 100 — which
crosses every scheduled threshold — fires exactly one event, the schedule
head AdImpression, and in particular not AdVideoComplete; this refutes
both that one call fires every crossed event and that the fired sequence
is AdVideoStart..AdVideoComplete. -/
theorem c2_counterexample :
    (VpaidLinearAd.timeUpdateHandler_
        { linReady with videoSlot := some ⟨6, 6, 1, false⟩ }).evs
      = ["AdImpression"]
  ∧ "AdVideoComplete" ∉ (VpaidLinearAd.timeUpdateHandler_
        { linReady with videoSlot := some ⟨6, 6, 1, false⟩ }).evs
  ∧ ((100 : ℚ) ≤ (6 : ℚ) * 100 / 6) := by
  refine ⟨?_, ?_, by norm_num⟩
  · norm_num [VpaidLinearAd.timeUpdateHandler_, VpaidLinearAd.durationCheck,
      VpaidLinearAd.callEvent_, VpaidLinearAd.quartileEvents_, linReady,
      VpaidLinearAd.construct, hostCbs, hostEvents, vsLin]
  · norm_num [VpaidLinearAd.timeUpdateHandler_, VpaidLinearAd.durationCheck,
      VpaidLinearAd.callEvent_, VpaidLinearAd.quartileEvents_, linReady,
      VpaidLinearAd.construct, hostCbs, hostEvents, vsLin]
    decide

/-- C2 amended: the linear quartile reporter fires at most one scheduled
event per time update — the earliest unfired one whose threshold the
current percent has reached — so over any sequence of time updates the
fired quartile events are exactly a contiguous segment of the schedule
(AdImpression, AdVideoStart, AdVideoFirstQuartile, AdVideoMidpoint,
AdVideoThirdQuartile, AdVideoComplete) in schedule order, each at most
once, never skipped over or reordered; a single call crossing several
thresholds fires only the first, the rest following one per later call. -/
theorem c2_amended_quartile_order (s sOne : VpaidLinearAd.State)
    (samples : List VideoSlot) (vs : VideoSlot)
    (hF : ∀ n ∈ VpaidLinearAd.quartileNames, s.eventsCallbacks_ n = .fn)
    (hD : s.eventsCallbacks_ "AdDurationChange" = .fn)
    (hF1 : ∀ n ∈ VpaidLinearAd.quartileNames, sOne.eventsCallbacks_ n = .fn)
    (hD1 : sOne.eventsCallbacks_ "AdDurationChange" = .fn) :
    (s.lastQuartileIndex
        ≤ (VpaidLinearAd.runTimeUpdates s samples).1.lastQuartileIndex)
  ∧ (VpaidLinearAd.runTimeUpdates s samples).2.filter
        (fun e => e ∈ VpaidLinearAd.quartileNames)
      = (VpaidLinearAd.quartileNames.drop s.lastQuartileIndex).take
          ((VpaidLinearAd.runTimeUpdates s samples).1.lastQuartileIndex
            - s.lastQuartileIndex)
  ∧ ((VpaidLinearAd.timeUpdateHandler_
        { sOne with videoSlot := some vs }).evs.filter
          (fun e => e ∈ VpaidLinearAd.quartileNames)).length ≤ 1 := by
  obtain ⟨r1, r2⟩ := runTimeUpdates_spec samples s hF hD
  obtain ⟨m1, m2, m3⟩ := timeUpdate_step sOne vs hF1 hD1
  refine ⟨r1, r2, ?_⟩
  rw [m3]
  have := List.length_take_le
    ((VpaidLinearAd.timeUpdateHandler_
        { sOne with videoSlot := some vs }).st.lastQuartileIndex
      - sOne.lastQuartileIndex)
    (VpaidLinearAd.quartileNames.drop sOne.lastQuartileIndex)
  omega

/-- C2 amended witness: the quartile order contract evaluated on the
initialized linear ad over a two-sample run and a single jump call. -/
theorem c2_amended_quartile_order_witness :
    (VpaidLinearAd.runTimeUpdates linReady
        [⟨6, 0, 1, false⟩, ⟨6, 3, 1, false⟩]).2.filter
        (fun e => e ∈ VpaidLinearAd.quartileNames)
      = (VpaidLinearAd.quartileNames.drop linReady.lastQuartileIndex).take
          ((VpaidLinearAd.runTimeUpdates linReady
              [⟨6, 0, 1, false⟩, ⟨6, 3, 1, false⟩]).1.lastQuartileIndex
            - linReady.lastQuartileIndex)
  ∧ ((VpaidLinearAd.timeUpdateHandler_
        { linReady with videoSlot := some ⟨6, 6, 1, false⟩ }).evs.filter
          (fun e => e ∈ VpaidLinearAd.quartileNames)).length ≤ 1 :=
  ⟨(c2_amended_quartile_order linReady linReady
      [⟨6, 0, 1, false⟩, ⟨6, 3, 1, false⟩] ⟨6, 6, 1, false⟩ (by decide)
      (by decide) (by decide) (by decide)).2.1,
   (c2_amended_quartile_order linReady linReady
      [⟨6, 0, 1, false⟩, ⟨6, 3, 1, false⟩] ⟨6, 6, 1, false⟩ (by decide)
      (by decide) (by decide) (by decide)).2.2⟩

/-- C3 counterexample: a single startAd call on the initialized linear
adapter (full documented event set subscribed) dispatches only AdStarted —
no AdImpression — refuting the claim that startAd dispatches AdStarted then
AdImpression in both variants. -/
theorem c3_counterexample :
    (VpaidLinearAd.startAd linReady).evs = ["AdStarted"]
  ∧ "AdImpression" ∉ (VpaidLinearAd.startAd linReady).evs
  ∧ (VpaidLinearAd.startAd linReady).ok = true := by
  decide

/-- C3 amended: the non-linear startAd dispatches AdStarted then
AdImpression, exactly once each per call; the linear startAd dispatches
only AdStarted, and its AdImpression instead fires through the quartile
schedule as the first event of the first time update (threshold 0), hence
after start; resumeAd never dispatches AdImpression in either variant. -/
theorem c3_amended_impression_policy
    (sN : VpaidNonLinear.State) (now : ℚ) (nA : Nat)
    (sL sQ : VpaidLinearAd.State) (nL : Nat) (vsL vsQ : VideoSlot)
    (sR : VpaidLinearAd.State) (sNR : VpaidNonLinear.State) (tR : ℚ)
    (hA : sN.adsLen = some (nA + 1)) (hS : sN.slotPresent = true)
    (h1 : sN.eventCallbacks_ "AdStarted" = .fn)
    (h2 : sN.eventCallbacks_ "AdImpression" = .fn)
    (hA2 : sL.adsLen = some (nL + 1)) (hS2 : sL.slotPresent = true)
    (hV : sL.videoSlot = some vsL)
    (h3 : sL.eventsCallbacks_ "AdStarted" = .fn)
    (hQ0 : sQ.lastQuartileIndex = 0)
    (hQf : sQ.eventsCallbacks_ "AdImpression" = .fn)
    (hCt : 0 ≤ vsQ.currentTime) (hDur : 0 < vsQ.duration) :
    ((VpaidNonLinear.startAd now sN).evs = ["AdStarted", "AdImpression"]
      ∧ (VpaidNonLinear.startAd now sN).ok = true)
  ∧ ((VpaidLinearAd.startAd sL).evs = ["AdStarted"]
      ∧ (VpaidLinearAd.startAd sL).ok = true)
  ∧ (VpaidLinearAd.timeUpdateHandler_
        { sQ with videoSlot := some vsQ }).evs.head? = some "AdImpression"
  ∧ "AdImpression" ∉ (VpaidLinearAd.resumeAd sR).evs
  ∧ "AdImpression" ∉ (VpaidNonLinear.resumeAd tR sNR).evs := by
  refine ⟨?_, ?_, ?_, ?_, ?_⟩
  · simp [VpaidNonLinear.startAd, hA, hS, emitChain, h1, h2]
  · simp [VpaidLinearAd.startAd, hA2, hS2, hV, emitChain, h3]
  · have hperc : (0 : ℚ) ≤ vsQ.currentTime * 100 / vsQ.duration :=
      div_nonneg (mul_nonneg hCt (by norm_num)) hDur.le
    have h6 : ¬ (VpaidLinearAd.quartileEvents_.length ≤
        ({ sQ with videoSlot := some vsQ } : VpaidLinearAd.State).lastQuartileIndex) := by
      simp [VpaidLinearAd.quartileEvents_, hQ0]
    simp [VpaidLinearAd.timeUpdateHandler_, hQ0, hQf, hperc,
          VpaidLinearAd.quartileEvents_, durationCheck_evs_head]
  · rcases hv : sR.videoSlot with _ | vs <;>
      rcases hc : sR.eventsCallbacks_ "AdPlaying" <;>
        simp [VpaidLinearAd.resumeAd, emitChain, hv, hc]
  · rcases hv : sNR.videoSlot with _ | vs <;>
      rcases hc : sNR.eventCallbacks_ "AdPlaying" <;>
        simp [VpaidNonLinear.resumeAd, emitChain, hv, hc]

/-- C3 amended witness: the impression policy evaluated on the concrete
initialized states. -/
theorem c3_amended_impression_policy_witness :
    (VpaidNonLinear.startAd 0 nlReady).evs = ["AdStarted", "AdImpression"]
  ∧ (VpaidLinearAd.startAd linReady).evs = ["AdStarted"] :=
  ⟨(c3_amended_impression_policy nlReady 0 0 linReady linReady 0 vsLin
      ⟨6, 0, 1, false⟩ linReady nlReady 0 rfl rfl (by decide) (by decide)
      rfl rfl rfl (by decide) rfl (by decide) (by norm_num)
      (by norm_num)).1.1,
   (c3_amended_impression_policy nlReady 0 0 linReady linReady 0 vsLin
      ⟨6, 0, 1, false⟩ linReady nlReady 0 rfl rfl (by decide) (by decide)
      rfl rfl rfl (by decide) rfl (by decide) (by norm_num)
      (by norm_num)).2.1.1⟩

/-- C10 witness: the resize contract evaluated on the concrete initialized
states. -/
theorem c10_resize_frame_witness :
    (VpaidLinearAd.resizeAd 640 480 "fullscreen" linReady).evs
      = ["AdSizeChange"]
  ∧ (VpaidNonLinear.resizeAd 640 480 "fullscreen" nlReady).st.volume
      = nlReady.volume :=
  ⟨(c10_resize_frame linReady nlReady ⟨10, 0, 1, false⟩ 640 480 "fullscreen"
      (by decide) (by decide) rfl).1.2.2.2.2.1,
   (c10_resize_frame linReady nlReady ⟨10, 0, 1, false⟩ 640 480 "fullscreen"
      (by decide) (by decide) rfl).2.2.2.2.2.2.1⟩
